import Mathlib

/-!
Formal model of the `enxtai-kyc-system` ML service
(`apps/ml-service/app`): the OpenCV face-extraction service, the
DeepFace verification/liveness service, and the three FastAPI routers.

Modelling conventions:
* Python floats are modelled as rationals (`ℚ`).
* Calls into the third-party native libraries (`cv2.imread`,
  `cv2.CascadeClassifier.detectMultiScale`, `cv2.imencode`,
  `cv2.Laplacian`/`.var()`/`.mean()`, `DeepFace.verify`,
  `DeepFace.extract_faces`) are oracle parameters: the surrounding
  repository code is translated faithfully, the library outputs are
  universally quantified inputs.
* Pure library helpers whose behaviour is fixed by their documentation
  (`base64.b64encode`, Python `int()` truncation, Python `round`) are
  implemented directly.
-/

namespace KYC

/-- Python `int()` on a float: truncation toward zero. -/
def pyInt (q : ℚ) : ℤ := if q < 0 then ⌈q⌉ else ⌊q⌋

/-- Round-half-to-even on a rational, as Python's builtin `round` ties rule. -/
def roundHalfEven (q : ℚ) : ℤ :=
  let f := ⌊q⌋
  let r := q - f
  if r < 1/2 then f
  else if 1/2 < r then f + 1
  else if f % 2 = 0 then f else f + 1

/-- Python `round(q, 2)`. -/
def pyRound2 (q : ℚ) : ℚ := (roundHalfEven (q * 100) : ℚ) / 100

/-- The RFC 4648 base64 alphabet. -/
def base64Table : List Char :=
  "ABCDEFGHIJKLMNOPQRSTUVWXYZabcdefghijklmnopqrstuvwxyz0123456789+/".toList

def b64Char (n : Nat) : Char := base64Table.getD n 'A'

/-- `base64.b64encode` over a byte list (standard alphabet, `=` padding). -/
def base64Encode : List Nat → List Char
  | [] => []
  | [a] => [b64Char (a / 4), b64Char (a % 4 * 16), '=', '=']
  | [a, b] => [b64Char (a / 4), b64Char (a % 4 * 16 + b / 16), b64Char (b % 16 * 4), '=']
  | a :: b :: c :: rest =>
      b64Char (a / 4) :: b64Char (a % 4 * 16 + b / 16) ::
      b64Char (b % 16 * 4 + c / 64) :: b64Char (c % 64) :: base64Encode rest

/-- A decoded image (`cv2.imread` result): rows of pixels.  Pixel values are
abstract `Nat`s; only shapes and region extraction matter to the claims. -/
structure Image where
  rows : List (List Nat)
deriving DecidableEq

/-- `image.shape[0]`. -/
def Image.height (img : Image) : ℤ := img.rows.length

/-- `image.shape[1]`. -/
def Image.width (img : Image) : ℤ := (img.rows.headD []).length

/-- numpy slicing `image[y : y + h, x : x + w]`. -/
def Image.crop (img : Image) (x y w h : ℤ) : Image :=
  ⟨((img.rows.drop y.toNat).take h.toNat).map
      (fun row => (row.drop x.toNat).take w.toNat)⟩

/-- A detection rectangle as returned by `detectMultiScale`. -/
structure Rect where
  x : ℤ
  y : ℤ
  w : ℤ
  h : ℤ
deriving DecidableEq

/-- The sort key of the source: `rect[2] * rect[3]`. -/
def Rect.area (r : Rect) : ℤ := r.w * r.h

namespace OpenCVService

/-- Python `max(f0 :: rest, key=lambda rect: rect[2] * rect[3])`:
the first element of maximal area wins. -/
def pyMaxByArea (f0 : Rect) (rest : List Rect) : Rect :=
  rest.foldl (fun acc r => if acc.area < r.area then r else acc) f0

/-- `OpenCVService._add_padding(shape, bbox, padding_ratio)`; `pr` is the
source's padding-ratio parameter. -/
def _add_padding (height width x y w h : ℤ) ( pr : ℚ) : ℤ × ℤ × ℤ × ℤ :=
  let pad_w := pyInt ((w : ℚ) * pr)
  let pad_h := pyInt ((h : ℚ) * pr)
  let x_new := max 0 (x - pad_w)
  let y_new := max 0 (y - pad_h)
  let w_new := min (width - x_new) (w + 2 * pad_w)
  let h_new := min (height - y_new) (h + 2 * pad_h)
  (x_new, y_new, w_new, h_new)

/-- The result dictionary shape of `extract_face_from_document`. -/
structure ExtractResult where
  success : Bool
  face_found : Bool
  face_base64 : Option String
  face_count : Nat
  message : String
deriving DecidableEq

/-- `OpenCVService.extract_face_from_document`.  `img?` is the `cv2.imread`
result (`none` = unreadable); `detect` is the oracle for
grayscale conversion + histogram equalisation + `detectMultiScale`
(`.error msg` = the library call raises an exception with message `msg`,
caught by the method's generic except branch); `encode` is the oracle for
`cv2.imencode(".jpg", ·)` (`.error msg` = it raises, `.ok none` = it
returns with `success` false, `.ok (some buffer)` = the encoded bytes). -/
def extract_face_from_document (img? : Option Image)
    (detect : Image → Except String (List Rect))
    (encode : Image → Except String (Option (List Nat))) :
    ExtractResult :=
  match img? with
  | none => ⟨false, false, none, 0, "Invalid or unreadable image"⟩
  | some image =>
    match detect image with
    | .error exc => ⟨false, false, none, 0, exc⟩
    | .ok faces =>
      match faces with
      | [] => ⟨false, false, none, 0, "No face detected"⟩
      | f0 :: rest =>
        let sel := pyMaxByArea f0 rest
        let p := _add_padding image.height image.width sel.x sel.y sel.w sel.h (1/5)
        let face_img := image.crop p.1 p.2.1 p.2.2.1 p.2.2.2
        match encode face_img with
        | .error exc => ⟨false, false, none, 0, exc⟩
        | .ok none => ⟨false, true, none, faces.length, "Failed to encode face image"⟩
        | .ok (some buffer) =>
            ⟨true, true, some (String.mk (base64Encode buffer)), faces.length,
              "Largest face extracted"⟩

end OpenCVService

namespace DeepFaceService

/-- `DeepFaceService.MODEL_NAME`. -/
def MODEL_NAME : String := "ArcFace"

/-- `DeepFaceService.BLUR_THRESHOLD`. -/
def BLUR_THRESHOLD : ℚ := 100

/-- The dictionary returned by the `DeepFace.verify` library call; each field
may be absent (the source reads them with `result.get(key, default)`). -/
structure VerifyRaw where
  distance : Option ℚ
  threshold : Option ℚ
  verified : Option Bool
deriving DecidableEq

/-- Outcome of the `DeepFace.verify` library call: a result dictionary, a
raised `ValueError` (no face detected), or any other raised exception. -/
inductive VerifyOutcome where
  | ok (r : VerifyRaw)
  | valueError (msg : String)
  | failure (msg : String)
deriving DecidableEq

/-- The dictionary returned by `DeepFaceService.verify_faces`; `error` is the
optional "error" key (absent on the success branch). -/
structure VerifyResult where
  verified : Bool
  confidence : ℚ
  distance : ℚ
  model : String
  threshold : ℚ
  error : Option String
deriving DecidableEq

/-- `DeepFaceService.verify_faces`, parameterised by the outcome of the
`DeepFace.verify` call on the two image paths. -/
def verify_faces (lib : VerifyOutcome) : VerifyResult :=
  match lib with
  | .ok r =>
      let distance := r.distance.getD 1
      let threshold := r.threshold.getD 0
      let confidence := max 0 (1 - distance)
      ⟨r.verified.getD false, confidence, distance, MODEL_NAME, threshold, none⟩
  | .valueError _ => ⟨false, 0, 1, MODEL_NAME, 0, some "No face detected"⟩
  | .failure msg => ⟨false, 0, 1, MODEL_NAME, 0, some msg⟩

/-- The dictionary returned by `DeepFaceService.detect_liveness`. -/
structure LivenessResult where
  is_live : Bool
  confidence : ℚ
  method : String
  message : String
deriving DecidableEq

/-- `DeepFaceService.detect_liveness`.  `faces` is the output of the
`DeepFace.extract_faces` library call (entries abstracted away, only the
count is used); `img?` is the `cv2.imread` result; `blurOf` and
`brightnessOf` are the oracles for the Laplacian variance and the grayscale
mean of the pixel buffer. -/
def detect_liveness (faces : List Unit) (img? : Option Image)
    (blurOf brightnessOf : Image → ℚ) : LivenessResult :=
  let face_count := faces.length
  if face_count = 0 then
    ⟨false, 0, "basic_quality_check", "No face detected"⟩
  else
    match img? with
    | none => ⟨false, 0, "basic_quality_check", "Invalid image"⟩
    | some image =>
        let blur := blurOf image
        let brightness := brightnessOf image
        let blur_score := min 1 (blur / BLUR_THRESHOLD)
        let brightness_score : ℚ :=
          if 60 ≤ brightness ∧ brightness ≤ 200 then 1 else 0
        let confidence := (blur_score + brightness_score) / 2
        let is_live : Bool :=
          decide (BLUR_THRESHOLD * (1/2) < blur) && decide (0 < brightness_score)
        let message :=
          if is_live then "Liveness indicators passed" else "Liveness indicators weak"
        ⟨is_live, pyRound2 confidence, "basic_quality_check", message⟩

/-- Modelled from the spec: the third-party face-recognition library call
(`DeepFace.verify`, not part of this repository) "produc[es] a
distance/threshold pair" and decides match/no-match "via an
embedding-distance metric against a fixed threshold": it reports
`verified` exactly when the distance is at most the threshold. -/
def deepFaceVerifyModel (d t : ℚ) : VerifyRaw :=
  ⟨some d, some t, some (decide (d ≤ t))⟩

end DeepFaceService

namespace Routers

/-- `_validate_image`'s accepted set: `{"image/jpeg", "image/png"}`. -/
def allowedContentType (ct : String) : Bool :=
  ct = "image/jpeg" || ct = "image/png"

/-- An `HTTPException`: status code and detail. -/
structure HTTPError where
  statusCode : Nat
  detail : String
deriving DecidableEq

/-- The `_validate_image` rejection. -/
def unsupportedType : HTTPError :=
  ⟨400, "Unsupported file type. Only JPEG and PNG are allowed."⟩

/-- Observable file-system / service effects of one request: how many
temporary files were created, whether the service was invoked, and for how
many temporary files deletion (`os.unlink`) was attempted. -/
structure EndpointEffects where
  tmpCreated : Nat
  serviceCalled : Bool
  tmpUnlinkAttempted : Nat
deriving DecidableEq

/-- Python truthiness of `result.get("error")`. -/
def optStrTruthy : Option String → Bool
  | none => false
  | some s => !s.isEmpty

/-- The `POST /api/verify-face` handler.  `ct1`/`ct2` are the content types
of `live_photo`/`document_photo`; `body_exc` is `some msg` when the
read/write part of the `try` body raises an exception with message `msg`;
`svc` is the `verify_faces` service result. -/
def verify_face (ct1 ct2 : String) (body_exc : Option String)
    (svc : DeepFaceService.VerifyResult) :
    Except HTTPError DeepFaceService.VerifyResult × EndpointEffects :=
  if allowedContentType ct1 = false then (.error unsupportedType, ⟨0, false, 0⟩)
  else if allowedContentType ct2 = false then (.error unsupportedType, ⟨0, false, 0⟩)
  else
    match body_exc with
    | some msg => (.error ⟨500, msg⟩, ⟨2, false, 2⟩)
    | none =>
        if optStrTruthy svc.error then
          (.error ⟨400, svc.error.getD ""⟩, ⟨2, true, 2⟩)
        else (.ok svc, ⟨2, true, 2⟩)

/-- The `POST /api/extract-face` handler; parameters as in `verify_face`,
with `svc` the `extract_face_from_document` service result. -/
def extract_face (ct : String) (body_exc : Option String)
    (svc : OpenCVService.ExtractResult) :
    Except HTTPError OpenCVService.ExtractResult × EndpointEffects :=
  if allowedContentType ct = false then (.error unsupportedType, ⟨0, false, 0⟩)
  else
    match body_exc with
    | some msg => (.error ⟨500, msg⟩, ⟨1, false, 1⟩)
    | none =>
        if svc.success = false then (.error ⟨400, svc.message⟩, ⟨1, true, 1⟩)
        else (.ok svc, ⟨1, true, 1⟩)

/-- The `POST /api/detect-liveness` handler; parameters as in
`verify_face`, with `svc` the `detect_liveness` service result. -/
def detect_liveness (ct : String) (body_exc : Option String)
    (svc : DeepFaceService.LivenessResult) :
    Except HTTPError DeepFaceService.LivenessResult × EndpointEffects :=
  if allowedContentType ct = false then (.error unsupportedType, ⟨0, false, 0⟩)
  else
    match body_exc with
    | some msg => (.error ⟨500, msg⟩, ⟨1, false, 1⟩)
    | none =>
        if svc.message = "No face detected" then
          (.error ⟨400, svc.message⟩, ⟨1, true, 1⟩)
        else (.ok svc, ⟨1, true, 1⟩)

end Routers

lemma pyInt_nonneg_eq_floor (q : ℚ) (h : 0 ≤ q) : pyInt q = ⌊q⌋ := by
  rw [pyInt, if_neg (not_lt.mpr h)]

lemma pyInt_fifth (w : ℤ) (hw : 0 ≤ w) : pyInt ((w : ℚ) * (1/5)) = w / 5 := by
  have h1 : ((w : ℚ) * (1/5)) = (w : ℚ) / ((5:ℕ) : ℚ) := by push_cast; ring
  rw [h1, pyInt_nonneg_eq_floor _ (by positivity), Rat.floor_intCast_div_natCast]
  norm_num

namespace OpenCVService

lemma area_le_step (a r : Rect) :
    a.area ≤ (if a.area < r.area then r else a).area ∧
    r.area ≤ (if a.area < r.area then r else a).area := by
  split <;> omega

lemma le_area_pyMaxByArea (f0 : Rect) (rest : List Rect) :
    f0.area ≤ (pyMaxByArea f0 rest).area := by
  induction rest generalizing f0 with
  | nil => simp [pyMaxByArea]
  | cons r rs ih =>
      calc f0.area ≤ (if f0.area < r.area then r else f0).area := (area_le_step f0 r).1
        _ ≤ _ := ih _

lemma mem_area_le_pyMaxByArea (f0 : Rect) (rest : List Rect) :
    ∀ r ∈ rest, r.area ≤ (pyMaxByArea f0 rest).area := by
  induction rest generalizing f0 with
  | nil => simp
  | cons r rs ih =>
      intro s hs
      rcases List.mem_cons.mp hs with h | h
      · subst h
        calc s.area ≤ (if f0.area < s.area then s else f0).area := (area_le_step f0 s).2
          _ ≤ _ := le_area_pyMaxByArea _ _
      · exact ih _ s h

lemma pyMaxByArea_mem (f0 : Rect) (rest : List Rect) :
    pyMaxByArea f0 rest ∈ f0 :: rest := by
  induction rest generalizing f0 with
  | nil => simp [pyMaxByArea]
  | cons r rs ih =>
      have h := ih (if f0.area < r.area then r else f0)
      rw [pyMaxByArea] at h ⊢
      simp only [List.foldl_cons]
      rcases List.mem_cons.mp h with h' | h'
      · rw [h']
        split <;> simp
      · simp [h']

end OpenCVService

/-- C9: `_add_padding` with padding ratio 0.2, on a box inside an image of
positive extent, returns a box that stays within the image and contains the
original box. -/
theorem add_padding_in_bounds (height width x y w h : ℤ)
    (hH : 0 < height) (hW : 0 < width) (hx : 0 ≤ x) (hy : 0 ≤ y)
    (hw : 0 < w) (hh : 0 < h) (hxw : x + w ≤ width) (hyh : y + h ≤ height) :
    let p := OpenCVService._add_padding height width x y w h (1/5)
    0 ≤ p.1 ∧ 0 ≤ p.2.1 ∧ p.1 + p.2.2.1 ≤ width ∧ p.2.1 + p.2.2.2 ≤ height ∧
    p.1 ≤ x ∧ p.2.1 ≤ y ∧ x + w ≤ p.1 + p.2.2.1 ∧ y + h ≤ p.2.1 + p.2.2.2 := by
  simp only [OpenCVService._add_padding, pyInt_fifth w hw.le, pyInt_fifth h hh.le]
  refine ⟨by omega, by omega, by omega, by omega, by omega, by omega, by omega, by omega⟩

/-- Witness for C9 at image 100×80 and box (5, 6, 20, 30). -/
theorem add_padding_in_bounds_witness :
    ((0:ℤ) < 100 ∧ (0:ℤ) < 80 ∧ (0:ℤ) ≤ 5 ∧ (0:ℤ) ≤ 6 ∧ (0:ℤ) < 20 ∧
      (0:ℤ) < 30 ∧ (5:ℤ) + 20 ≤ 80 ∧ (6:ℤ) + 30 ≤ 100) ∧
    (let p := OpenCVService._add_padding 100 80 5 6 20 30 (1/5)
     0 ≤ p.1 ∧ 0 ≤ p.2.1 ∧ p.1 + p.2.2.1 ≤ 80 ∧ p.2.1 + p.2.2.2 ≤ 100 ∧
     p.1 ≤ 5 ∧ p.2.1 ≤ 6 ∧ 5 + 20 ≤ p.1 + p.2.2.1 ∧ 6 + 30 ≤ p.2.1 + p.2.2.2) :=
  ⟨by decide,
   add_padding_in_bounds 100 80 5 6 20 30 (by decide) (by decide) (by decide)
     (by decide) (by decide) (by decide) (by decide) (by decide)⟩

/-- C1: when the detector reports at least one face in a readable image and
JPEG encoding succeeds, `extract_face_from_document` crops the padded
largest-area detection and returns success with the base64 of the encoding,
the detection count, and message "Largest face extracted". -/
theorem extract_face_from_document_success (image : Image)
    (detect : Image → Except String (List Rect))
    (encode : Image → Except String (Option (List Nat)))
    (f0 : Rect) (rest : List Rect) (px py pw ph : ℤ) (buf : List Nat)
    (hdet : detect image = .ok (f0 :: rest))
    (hpad : OpenCVService._add_padding image.height image.width
        (OpenCVService.pyMaxByArea f0 rest).x (OpenCVService.pyMaxByArea f0 rest).y
        (OpenCVService.pyMaxByArea f0 rest).w (OpenCVService.pyMaxByArea f0 rest).h
        (1/5) = (px, py, pw, ph))
    (henc : encode (image.crop px py pw ph) = .ok (some buf)) :
    OpenCVService.extract_face_from_document (some image) detect encode =
      ⟨true, true, some (String.mk (base64Encode buf)), (f0 :: rest).length,
        "Largest face extracted"⟩ ∧
    OpenCVService.pyMaxByArea f0 rest ∈ f0 :: rest ∧
    ∀ r ∈ f0 :: rest, r.area ≤ (OpenCVService.pyMaxByArea f0 rest).area := by
  refine ⟨?_, OpenCVService.pyMaxByArea_mem f0 rest, ?_⟩
  · simp only [OpenCVService.extract_face_from_document, hdet, hpad, henc]
  · intro r hr
    rcases List.mem_cons.mp hr with h | h
    · exact h ▸ OpenCVService.le_area_pyMaxByArea f0 rest
    · exact OpenCVService.mem_area_le_pyMaxByArea f0 rest r h

/-- Witness for C1: a 3×3 image, one detection (0,0,2,2), a constant
encoder producing bytes [77, 78]. -/
theorem extract_face_from_document_success_witness :
    ((fun _ => (Except.ok [(⟨0, 0, 2, 2⟩ : Rect)] : Except String (List Rect)))
          (⟨[[1,2,3],[4,5,6],[7,8,9]]⟩ : Image)
        = .ok [(⟨0, 0, 2, 2⟩ : Rect)] ∧
      OpenCVService._add_padding (⟨[[1,2,3],[4,5,6],[7,8,9]]⟩ : Image).height
        (⟨[[1,2,3],[4,5,6],[7,8,9]]⟩ : Image).width
        (OpenCVService.pyMaxByArea ⟨0, 0, 2, 2⟩ []).x
        (OpenCVService.pyMaxByArea ⟨0, 0, 2, 2⟩ []).y
        (OpenCVService.pyMaxByArea ⟨0, 0, 2, 2⟩ []).w
        (OpenCVService.pyMaxByArea ⟨0, 0, 2, 2⟩ []).h (1/5) = (0, 0, 2, 2) ∧
      (fun _ => (Except.ok (some [77, 78]) : Except String (Option (List Nat))))
          ((⟨[[1,2,3],[4,5,6],[7,8,9]]⟩ : Image).crop 0 0 2 2)
        = .ok (some [77, 78])) ∧
    OpenCVService.extract_face_from_document (some ⟨[[1,2,3],[4,5,6],[7,8,9]]⟩)
        (fun _ => .ok [⟨0, 0, 2, 2⟩]) (fun _ => .ok (some [77, 78])) =
      ⟨true, true, some (String.mk (base64Encode [77, 78])),
        [(⟨0, 0, 2, 2⟩ : Rect)].length, "Largest face extracted"⟩ ∧
    OpenCVService.pyMaxByArea ⟨0, 0, 2, 2⟩ [] ∈ [(⟨0, 0, 2, 2⟩ : Rect)] ∧
    ∀ r ∈ [(⟨0, 0, 2, 2⟩ : Rect)],
      r.area ≤ (OpenCVService.pyMaxByArea ⟨0, 0, 2, 2⟩ []).area :=
  ⟨⟨rfl, by norm_num [OpenCVService._add_padding, OpenCVService.pyMaxByArea, pyInt,
      Image.height, Image.width], rfl⟩,
   extract_face_from_document_success ⟨[[1,2,3],[4,5,6],[7,8,9]]⟩
     (fun _ => .ok [⟨0, 0, 2, 2⟩]) (fun _ => .ok (some [77, 78]))
     ⟨0, 0, 2, 2⟩ [] 0 0 2 2 [77, 78]
     rfl
     (by norm_num [OpenCVService._add_padding, OpenCVService.pyMaxByArea, pyInt,
        Image.height, Image.width])
     rfl⟩

/-- C10: every result of `extract_face_from_document` has a base64 payload
exactly when it is successful, success implies a face was found, and no face
found implies a zero face count. -/
theorem extract_face_from_document_invariant (img? : Option Image)
    (detect : Image → Except String (List Rect))
    (encode : Image → Except String (Option (List Nat))) :
    ((OpenCVService.extract_face_from_document img? detect encode).face_base64.isSome
        ↔ (OpenCVService.extract_face_from_document img? detect encode).success = true) ∧
    ((OpenCVService.extract_face_from_document img? detect encode).success = true →
        (OpenCVService.extract_face_from_document img? detect encode).face_found = true) ∧
    ((OpenCVService.extract_face_from_document img? detect encode).face_found = false →
        (OpenCVService.extract_face_from_document img? detect encode).face_count = 0) := by
  rcases img? with _ | image
  · simp [OpenCVService.extract_face_from_document]
  · simp only [OpenCVService.extract_face_from_document]
    split
    · simp
    · split
      · simp
      · split <;> simp

/-- C2: when the `DeepFace.verify` call succeeds and reports distance `d`,
threshold `t` and verdict `v`, `verify_faces` returns confidence
`max 0 (1 - d)` (`1 - d` clamped below at 0), distance `d`, threshold `t`
and verified `v`, with the fixed model name and no error key. -/
theorem verify_faces_success (r : DeepFaceService.VerifyRaw) (d t : ℚ) (v : Bool)
    (hd : r.distance = some d) (ht : r.threshold = some t)
    (hv : r.verified = some v) :
    DeepFaceService.verify_faces (.ok r) =
      ⟨v, max 0 (1 - d), d, "ArcFace", t, none⟩ := by
  simp [DeepFaceService.verify_faces, hd, ht, hv, DeepFaceService.MODEL_NAME]

/-- Witness for C2 at distance 1/5, threshold 3/10, verdict true. -/
theorem verify_faces_success_witness :
    ((⟨some (1/5), some (3/10), some true⟩ : DeepFaceService.VerifyRaw).distance
        = some (1/5) ∧
      (⟨some (1/5), some (3/10), some true⟩ : DeepFaceService.VerifyRaw).threshold
        = some (3/10) ∧
      (⟨some (1/5), some (3/10), some true⟩ : DeepFaceService.VerifyRaw).verified
        = some true) ∧
    DeepFaceService.verify_faces (.ok ⟨some (1/5), some (3/10), some true⟩) =
      ⟨true, max 0 (1 - 1/5), 1/5, "ArcFace", 3/10, none⟩ :=
  ⟨⟨rfl, rfl, rfl⟩, verify_faces_success _ (1/5) (3/10) true rfl rfl rfl⟩

/-- C3: when the `DeepFace.verify` call raises, `verify_faces` returns a
dictionary (it does not raise) with an error marker — "No face detected" for
a `ValueError`, the exception message otherwise — together with verified
false, confidence 0, distance 1 and threshold 0. -/
theorem verify_faces_error (msg : String) :
    DeepFaceService.verify_faces (.valueError msg) =
      ⟨false, 0, 1, "ArcFace", 0, some "No face detected"⟩ ∧
    DeepFaceService.verify_faces (.failure msg) =
      ⟨false, 0, 1, "ArcFace", 0, some msg⟩ :=
  ⟨rfl, rfl⟩

/-- C5: against the spec's model of the face-recognition library (verified
exactly when distance is at most threshold), a successful `verify_faces`
returns verified true iff the returned distance is at most the returned
threshold. -/
theorem verify_faces_threshold_decision (d t : ℚ) :
    (DeepFaceService.verify_faces
        (.ok (DeepFaceService.deepFaceVerifyModel d t))).verified = true ↔
      (DeepFaceService.verify_faces
          (.ok (DeepFaceService.deepFaceVerifyModel d t))).distance ≤
        (DeepFaceService.verify_faces
            (.ok (DeepFaceService.deepFaceVerifyModel d t))).threshold := by
  simp [DeepFaceService.verify_faces, DeepFaceService.deepFaceVerifyModel]

/-- C4: on a readable image with at least one detected face,
`detect_liveness` returns confidence `round((min(1, blur/100) + b)/2, 2)`
with `b = 1` iff brightness lies in [60, 200], and is live exactly when
blur exceeds 50 and brightness lies in [60, 200]. -/
theorem detect_liveness_heuristics (faces : List Unit) (image : Image)
    (blurOf brightnessOf : Image → ℚ) (hfaces : faces ≠ []) :
    (DeepFaceService.detect_liveness faces (some image) blurOf brightnessOf).confidence
        = pyRound2 ((min 1 (blurOf image / 100) +
            (if 60 ≤ brightnessOf image ∧ brightnessOf image ≤ 200
              then (1:ℚ) else 0)) / 2) ∧
    ((DeepFaceService.detect_liveness faces (some image) blurOf brightnessOf).is_live
        = true ↔
      (50 < blurOf image ∧ 60 ≤ brightnessOf image ∧ brightnessOf image ≤ 200)) := by
  have hlen : faces.length ≠ 0 := by simpa using hfaces
  constructor
  · simp [DeepFaceService.detect_liveness, hlen, DeepFaceService.BLUR_THRESHOLD]
  · by_cases hP : 60 ≤ brightnessOf image ∧ brightnessOf image ≤ 200
    · simp [DeepFaceService.detect_liveness, hlen, DeepFaceService.BLUR_THRESHOLD, hP]
      norm_num
    · simp [DeepFaceService.detect_liveness, hlen, DeepFaceService.BLUR_THRESHOLD, hP]

/-- Witness for C4: one face, blur 120, brightness 130. -/
theorem detect_liveness_heuristics_witness :
    ([()] : List Unit) ≠ [] ∧
    ((DeepFaceService.detect_liveness [()] (some ⟨[[5]]⟩)
          (fun _ => 120) (fun _ => 130)).confidence
        = pyRound2 ((min 1 ((120:ℚ) / 100) +
            (if (60:ℚ) ≤ 130 ∧ (130:ℚ) ≤ 200 then (1:ℚ) else 0)) / 2) ∧
      ((DeepFaceService.detect_liveness [()] (some ⟨[[5]]⟩)
            (fun _ => 120) (fun _ => 130)).is_live = true ↔
        ((50:ℚ) < 120 ∧ (60:ℚ) ≤ 130 ∧ (130:ℚ) ≤ 200))) :=
  ⟨by simp,
   detect_liveness_heuristics [()] ⟨[[5]]⟩ (fun _ => 120) (fun _ => 130) (by simp)⟩

/-- C6: on each of the three endpoints, an upload whose content type is
neither image/jpeg nor image/png is rejected with HTTP 400 and detail
"Unsupported file type. Only JPEG and PNG are allowed.", with no temporary
file created and the service not invoked. -/
theorem invalid_content_type_rejected (ct ct1 ct2 : String)
    (exc1 exc2 exc3 : Option String)
    (vr : DeepFaceService.VerifyResult) (er : OpenCVService.ExtractResult)
    (lr : DeepFaceService.LivenessResult)
    (hct : Routers.allowedContentType ct = false)
    (hct12 : Routers.allowedContentType ct1 = false ∨
      Routers.allowedContentType ct2 = false) :
    Routers.verify_face ct1 ct2 exc1 vr =
      (.error ⟨400, "Unsupported file type. Only JPEG and PNG are allowed."⟩,
        ⟨0, false, 0⟩) ∧
    Routers.extract_face ct exc2 er =
      (.error ⟨400, "Unsupported file type. Only JPEG and PNG are allowed."⟩,
        ⟨0, false, 0⟩) ∧
    Routers.detect_liveness ct exc3 lr =
      (.error ⟨400, "Unsupported file type. Only JPEG and PNG are allowed."⟩,
        ⟨0, false, 0⟩) := by
  refine ⟨?_, ?_, ?_⟩
  · by_cases h1 : Routers.allowedContentType ct1 = false
    · simp [Routers.verify_face, h1, Routers.unsupportedType]
    · rcases hct12 with h | h
      · exact absurd h h1
      · simp [Routers.verify_face, h1, h, Routers.unsupportedType]
  · simp [Routers.extract_face, hct, Routers.unsupportedType]
  · simp [Routers.detect_liveness, hct, Routers.unsupportedType]

/-- Witness for C6 at content type "text/plain" on all three endpoints. -/
theorem invalid_content_type_rejected_witness :
    (Routers.allowedContentType "text/plain" = false ∧
      (Routers.allowedContentType "text/plain" = false ∨
        Routers.allowedContentType "image/png" = false)) ∧
    (Routers.verify_face "text/plain" "image/png" none
        ⟨false, 0, 1, "ArcFace", 0, none⟩ =
      (.error ⟨400, "Unsupported file type. Only JPEG and PNG are allowed."⟩,
        ⟨0, false, 0⟩) ∧
    Routers.extract_face "text/plain" none ⟨false, false, none, 0, "m"⟩ =
      (.error ⟨400, "Unsupported file type. Only JPEG and PNG are allowed."⟩,
        ⟨0, false, 0⟩) ∧
    Routers.detect_liveness "text/plain" none ⟨false, 0, "basic_quality_check", "m"⟩ =
      (.error ⟨400, "Unsupported file type. Only JPEG and PNG are allowed."⟩,
        ⟨0, false, 0⟩)) :=
  ⟨⟨by decide, Or.inl (by decide)⟩,
   invalid_content_type_rejected "text/plain" "text/plain" "image/png"
     none none none ⟨false, 0, 1, "ArcFace", 0, none⟩ ⟨false, false, none, 0, "m"⟩
     ⟨false, 0, "basic_quality_check", "m"⟩ (by decide) (Or.inl (by decide))⟩

/-- C7: on each endpoint, once content-type validation passes, every
temporary file created for the request has its deletion attempted before the
handler returns, on every path (success, service-reported error, raised
exception). -/
theorem temp_files_cleaned (ct ct1 ct2 : String) (exc1 exc2 exc3 : Option String)
    (vr : DeepFaceService.VerifyResult) (er : OpenCVService.ExtractResult)
    (lr : DeepFaceService.LivenessResult)
    (hct1 : Routers.allowedContentType ct1 = true)
    (hct2 : Routers.allowedContentType ct2 = true)
    (hct : Routers.allowedContentType ct = true) :
    ((Routers.verify_face ct1 ct2 exc1 vr).2.tmpCreated = 2 ∧
      (Routers.verify_face ct1 ct2 exc1 vr).2.tmpUnlinkAttempted = 2) ∧
    ((Routers.extract_face ct exc2 er).2.tmpCreated = 1 ∧
      (Routers.extract_face ct exc2 er).2.tmpUnlinkAttempted = 1) ∧
    ((Routers.detect_liveness ct exc3 lr).2.tmpCreated = 1 ∧
      (Routers.detect_liveness ct exc3 lr).2.tmpUnlinkAttempted = 1) := by
  refine ⟨?_, ?_, ?_⟩
  · rcases exc1 with _ | msg <;>
      simp [Routers.verify_face, hct1, hct2] <;> split <;> simp
  · rcases exc2 with _ | msg <;>
      simp [Routers.extract_face, hct] <;> split <;> simp
  · rcases exc3 with _ | msg <;>
      simp [Routers.detect_liveness, hct] <;> split <;> simp

/-- Witness for C7 with valid JPEG/PNG uploads and no exception. -/
theorem temp_files_cleaned_witness :
    (Routers.allowedContentType "image/jpeg" = true ∧
      Routers.allowedContentType "image/png" = true) ∧
    (((Routers.verify_face "image/jpeg" "image/png" none
          ⟨true, 1/2, 1/2, "ArcFace", 3/5, none⟩).2.tmpCreated = 2 ∧
      (Routers.verify_face "image/jpeg" "image/png" none
          ⟨true, 1/2, 1/2, "ArcFace", 3/5, none⟩).2.tmpUnlinkAttempted = 2) ∧
    ((Routers.extract_face "image/jpeg" none
          ⟨true, true, some "s", 1, "Largest face extracted"⟩).2.tmpCreated = 1 ∧
      (Routers.extract_face "image/jpeg" none
          ⟨true, true, some "s", 1, "Largest face extracted"⟩).2.tmpUnlinkAttempted = 1) ∧
    ((Routers.detect_liveness "image/jpeg" none
          ⟨true, 1, "basic_quality_check", "Liveness indicators passed"⟩).2.tmpCreated = 1 ∧
      (Routers.detect_liveness "image/jpeg" none
          ⟨true, 1, "basic_quality_check",
            "Liveness indicators passed"⟩).2.tmpUnlinkAttempted = 1)) :=
  ⟨⟨by decide, by decide⟩,
   temp_files_cleaned "image/jpeg" "image/jpeg" "image/png" none none none
     ⟨true, 1/2, 1/2, "ArcFace", 3/5, none⟩
     ⟨true, true, some "s", 1, "Largest face extracted"⟩
     ⟨true, 1, "basic_quality_check", "Liveness indicators passed"⟩
     (by decide) (by decide) (by decide)⟩

/-- C8: with a valid content type, `/api/extract-face` answers with HTTP 400
carrying the service result's message exactly when the result's success
field is false, and otherwise returns the service result as the 200 body. -/
theorem extract_face_response_mapping (ct : String)
    (er : OpenCVService.ExtractResult)
    (hct : Routers.allowedContentType ct = true) :
    ((Routers.extract_face ct none er).1 =
        .error ⟨400, er.message⟩ ↔ er.success = false) ∧
    (er.success = true → (Routers.extract_face ct none er).1 = .ok er) := by
  rcases h : er.success <;> simp [Routers.extract_face, hct, h]

/-- Witness for C8 at content type image/jpeg and a successful result. -/
theorem extract_face_response_mapping_witness :
    Routers.allowedContentType "image/jpeg" = true ∧
    (((Routers.extract_face "image/jpeg" none
          ⟨true, true, some "QUJD", 1, "Largest face extracted"⟩).1 =
        .error ⟨400, (⟨true, true, some "QUJD", 1, "Largest face extracted"⟩ :
            OpenCVService.ExtractResult).message⟩ ↔
      (⟨true, true, some "QUJD", 1, "Largest face extracted"⟩ :
          OpenCVService.ExtractResult).success = false) ∧
    ((⟨true, true, some "QUJD", 1, "Largest face extracted"⟩ :
          OpenCVService.ExtractResult).success = true →
      (Routers.extract_face "image/jpeg" none
          ⟨true, true, some "QUJD", 1, "Largest face extracted"⟩).1 =
        .ok ⟨true, true, some "QUJD", 1, "Largest face extracted"⟩)) :=
  ⟨by decide,
   extract_face_response_mapping "image/jpeg"
     ⟨true, true, some "QUJD", 1, "Largest face extracted"⟩ (by decide)⟩

end KYC
